import Mathlib

/-!
Verification of the `react-data-styles` counter example.

The repository has two components:
* `Counter` (the spec's StateOwner), in an unnamed source file: owns one
  integer state cell via `useState(0)` and defines three callbacks
  (`addNumber`, `multNumber`, `resetNumber`) that call the setter with an
  expression over the render-captured `count`.
* `CounterButton` (the spec's ActionView), in
  `src/CounterComponents/CounterButton.js`: a stateless view that returns a
  single button whose click handler is `properties.numberFunction` and whose
  body text is `properties.buttonLabel`.

We embed the transition expressions, the state-cell/render dynamics, and the
returned view trees, and prove the spec's claims about them.
-/

namespace ReactDataStyles

/-- The expression the `addNumber` callback passes to `setCount`:
`setCount(count + 1)`, where `count` is the value captured by the render
that created the callback. -/
def addNumber (count : Int) : Int :=
  count + 1

/-- The expression the `multNumber` callback passes to `setCount`:
`setCount(count * 5)`. -/
def multNumber (count : Int) : Int :=
  count * 5

/-- The expression the `resetNumber` callback passes to `setCount`:
`setCount(0)`, independent of the captured `count`. -/
def resetNumber (_count : Int) : Int :=
  0

/-- The three user-visible activations: clicking the "++", "*=5" and "=0"
buttons, i.e. firing `addNumber`, `multNumber` and `resetNumber`. -/
inductive Action where
  | increment
  | scale
  | reset
  deriving DecidableEq, Repr

/-- Which callback each action fires. -/
def transitionOf : Action → Int → Int
  | Action.increment => addNumber
  | Action.scale => multNumber
  | Action.reset => resetNumber

/-- The state of a mounted `Counter` instance: the React state cell written
by `setCount`, and the `count` value captured by the currently active render
(the value all three live callbacks close over). -/
structure CounterSys where
  cell : Int
  captured : Int
  deriving DecidableEq, Repr

/-- Firing one callback: `setCount` writes `transitionOf a` applied to the
render-captured `count` into the cell.  This is what the source does: the
callbacks read the closure variable `count`, not the live cell. -/
def activate (a : Action) (s : CounterSys) : CounterSys :=
  { s with cell := transitionOf a s.captured }

/-- Modelled from the spec: the spec's stated transition semantics, in which
a callback is "evaluated against the state value at the moment the callback
fires", i.e. reads the live cell rather than the captured `count`.  Kept
separate for comparison with `activate`, which embeds the source. -/
def liveActivateSpec (a : Action) (s : CounterSys) : CounterSys :=
  { s with cell := transitionOf a s.cell }

/-- A re-render: the component function runs again, `useState` returns the
current cell value, and fresh callbacks capture it. -/
def rerender (s : CounterSys) : CounterSys :=
  { s with captured := s.cell }

/-- One event-loop round under the spec's concurrency model (section 5):
the activation's state update is fully applied and the re-render it
scheduled runs before the next activation is processed. -/
def step (s : CounterSys) (a : Action) : CounterSys :=
  rerender (activate a s)

/-- `activate` with its arguments flipped for folding: a burst of
activations dispatched with no re-render in between, so every callback
still closes over the same captured `count`. -/
def activateStep (s : CounterSys) (a : Action) : CounterSys :=
  activate a s

/-- The state of a freshly mounted `Counter`: `useState(0)`. -/
def initSys : CounterSys :=
  ⟨0, 0⟩

/-- Run a sequence of activations from the initial mount, with a re-render
between consecutive activations. -/
def runRendered (acts : List Action) : CounterSys :=
  acts.foldl step initSys

/-- Modelled from the spec: "the result of folding the corresponding
transition functions left-to-right over the initial value 0". -/
def specDisplayedFold (acts : List Action) : Int :=
  acts.foldl (fun c a => transitionOf a c) 0

lemma captured_foldl_activateStep (l : List Action) (s : CounterSys) :
    (l.foldl activateStep s).captured = s.captured := by
  induction l generalizing s with
  | nil => rfl
  | cons a l ih => simpa [activateStep, activate] using ih (activate a s)

lemma foldl_activateStep_last (l : List Action) (a : Action) (s : CounterSys) :
    ((l ++ [a]).foldl activateStep s).cell = transitionOf a s.captured := by
  have h := captured_foldl_activateStep l s
  simp [List.foldl_append, activateStep, activate, h]

lemma foldl_step_synced (acts : List Action) (c : Int) :
    acts.foldl step ⟨c, c⟩ =
      ⟨acts.foldl (fun x a => transitionOf a x) c,
       acts.foldl (fun x a => transitionOf a x) c⟩ := by
  induction acts generalizing c with
  | nil => rfl
  | cons a acts ih => simpa [step, activate, rerender] using ih (transitionOf a c)

lemma runRendered_eq_fold (acts : List Action) :
    runRendered acts = ⟨specDisplayedFold acts, specDisplayedFold acts⟩ := by
  simpa [runRendered, initSys, specDisplayedFold] using foldl_step_synced acts 0

/-- A declarative view tree, as returned by the component functions.  `κ` is
the type of click-handler values stored in `onClick` slots. -/
inductive Node (κ : Type) where
  | element (tag : String) (cls : Option String) (onClick : Option κ) (children : List (Node κ))
  | text (s : String)

mutual

/-- The text a node displays: concatenation of its text leaves. -/
def innerText {κ : Type} : Node κ → String
  | Node.text s => s
  | Node.element _ _ _ cs => innerTextList cs

def innerTextList {κ : Type} : List (Node κ) → String
  | [] => ""
  | [n] => innerText n
  | n :: ns => innerText n ++ innerTextList ns

end

mutual

/-- The actionable elements of a view tree, in document order: each element
carrying a click handler, paired with the text it displays. -/
def actionables {κ : Type} : Node κ → List (κ × String)
  | Node.text _ => []
  | Node.element _ _ none cs => actionablesList cs
  | Node.element _ _ (some h) cs => (h, innerTextList cs) :: actionablesList cs

def actionablesList {κ : Type} : List (Node κ) → List (κ × String)
  | [] => []
  | n :: ns => actionables n ++ actionablesList ns

end

mutual

/-- How many elements with the given tag the tree contains. -/
def countTag {κ : Type} (t : String) : Node κ → Nat
  | Node.text _ => 0
  | Node.element tag _ _ cs => (if tag = t then 1 else 0) + countTagList t cs

def countTagList {κ : Type} (t : String) : List (Node κ) → Nat
  | [] => 0
  | n :: ns => countTag t n + countTagList t ns

end

mutual

/-- The displayed text of each `p` element of the tree, in document order. -/
def paragraphTexts {κ : Type} : Node κ → List String
  | Node.text _ => []
  | Node.element tag _ _ cs =>
      (if tag = "p" then [innerTextList cs] else []) ++ paragraphTextsList cs

def paragraphTextsList {κ : Type} : List (Node κ) → List String
  | [] => []
  | n :: ns => paragraphTexts n ++ paragraphTextsList ns

end

/-- The props object a parent builds for a `CounterButton` instance.  JSX
props form an open record; `CounterButton` only ever reads
`numberFunction` and `buttonLabel`, and `rest` holds whatever further
name/value pairs a caller might also set. -/
structure Props (κ : Type) where
  numberFunction : κ
  buttonLabel : String
  rest : List (String × String)

/-- `CounterButton` from `src/CounterComponents/CounterButton.js`: returns
`<button onClick={properties.numberFunction}>{properties.buttonLabel}</button>`. -/
def CounterButton {κ : Type} (properties : Props κ) : Node κ :=
  Node.element "button" none (some properties.numberFunction)
    [Node.text properties.buttonLabel]

/-- The view tree `Counter` returns for a render whose `useState` read
`count`: a `div.counter` holding an `h2` heading, a `p.click_desc` line
with the count in a `span`, and a `div.button_container` with the three
`CounterButton` instances.  Handlers are tagged by which of the three
callbacks the render bound (`addNumber`, `multNumber`, `resetNumber`, as
`transitionOf` maps them). -/
def CounterRender (count : Int) : Node Action :=
  Node.element "div" (some "counter") none
    [ Node.element "h2" none none [Node.text "React Counter"],
      Node.element "p" (some "click_desc") none
        [ Node.text "Your count: ",
          Node.element "span" none none [Node.text (toString count)] ],
      Node.element "div" (some "button_container") none
        [ CounterButton ⟨Action.increment, "++", []⟩,
          CounterButton ⟨Action.scale, "*=5", []⟩,
          CounterButton ⟨Action.reset, "=0", []⟩ ] ]

lemma counterRender_paragraphTexts (c : Int) :
    paragraphTexts (CounterRender c) = ["Your count: " ++ toString c] := by
  simp [CounterRender, CounterButton, paragraphTexts, paragraphTextsList,
    innerTextList, innerText]

lemma counterRender_actionables (c : Int) :
    actionables (CounterRender c) =
      [(Action.increment, "++"), (Action.scale, "*=5"), (Action.reset, "=0")] := by
  simp [CounterRender, CounterButton, actionables, actionablesList,
    innerTextList, innerText]

/-- A dynamically typed JavaScript value, as it may arrive in a props slot:
the source performs no validation, so a slot may hold `undefined` (a missing
property reads as `undefined`), a string, a number, or a function (here one
of the three counter callbacks). -/
inductive JSValue where
  | undef
  | str (s : String)
  | num (n : Int)
  | fn (a : Action)
  deriving DecidableEq, Repr

/-- Whether a JavaScript value can be called. -/
def isCallable : JSValue → Bool
  | JSValue.fn _ => true
  | _ => false

/-- What the view runtime displays for a JSX child expression: a string
verbatim, a number via its decimal form, and nothing for `undefined` or a
function value — a rendering anomaly, not an error. -/
def displayText : JSValue → String
  | JSValue.str s => s
  | JSValue.num n => toString n
  | JSValue.undef => ""
  | JSValue.fn _ => ""

/-- A props object with no shape guarantee: either slot may hold any value
or be missing (`undef`). -/
structure LooseProps where
  numberFunction : JSValue
  buttonLabel : JSValue
  deriving DecidableEq, Repr

/-- `CounterButton` run on an arbitrary props object.  The body is the same
single `return` as the source — no check, no branch, no throw — so it is a
straight `Except.ok`; the `Except` codomain records that a JavaScript
function body could raise, and this one never does. -/
def CounterButtonJS (properties : LooseProps) : Except String (Node JSValue) :=
  Except.ok (Node.element "button" none (some properties.numberFunction)
    [Node.text (displayText properties.buttonLabel)])

/-- The runtime dispatching a click to whatever value sits in the `onClick`
slot: calling a non-function raises a `TypeError` at activation time. -/
def dispatchClick (handler : JSValue) : Except String Action :=
  match handler with
  | JSValue.fn a => Except.ok a
  | _ => Except.error "TypeError: handler is not a function"

lemma reset_fold_step_zero (m : Nat) :
    (List.replicate m Action.reset).foldl step initSys = initSys := by
  induction m with
  | zero => rfl
  | succ j ih =>
      simpa [List.replicate_succ, step, activate, rerender, transitionOf,
        resetNumber, initSys] using ih

/-- Claim C1 counterexample: two rapid increment activations before any
re-render.  The source's callbacks (which close over the render-captured
`count`) leave the cell at 1, while the spec's live-reading semantics
(`liveActivateSpec`) would leave it at 2 — so the next state is not computed
from the value at the moment the callback fires. -/
theorem c1_counterexample :
    (activate Action.increment (activate Action.increment initSys)).cell ≠
      (liveActivateSpec Action.increment (liveActivateSpec Action.increment initSys)).cell := by
  decide

/-- Claim C1 (amended): every activation computes the next state from the
`count` value captured by the render that created the callback, not from
the live cell at fire time — `k` rapid increments from a render that
captured `c` leave the cell at `c + 1` (not `c + k`); the captured and live
values coincide only immediately after a re-render. -/
theorem c1_amended_stale (c : Int) (k : Nat) (h : 1 ≤ k) (s : CounterSys) (a : Action) :
    ((List.replicate k Action.increment).foldl activateStep ⟨c, c⟩).cell = c + 1 ∧
    (activate a (rerender s)).cell = (liveActivateSpec a (rerender s)).cell := by
  constructor
  · obtain ⟨j, rfl⟩ : ∃ j, k = j + 1 := ⟨k - 1, (Nat.succ_pred_eq_of_pos h).symm⟩
    rw [List.replicate_succ']
    simpa [transitionOf, addNumber] using
      foldl_activateStep_last (List.replicate j Action.increment) Action.increment ⟨c, c⟩
  · rfl

/-- Claim C1 witness: the amended statement at `c = 10`, `k = 3`,
`s = ⟨4, 9⟩`, `a = scale`. -/
theorem c1_amended_stale_witness :
    ((List.replicate 3 Action.increment).foldl activateStep ⟨10, 10⟩).cell = 10 + 1 ∧
    (activate Action.scale (rerender ⟨4, 9⟩)).cell =
      (liveActivateSpec Action.scale (rerender ⟨4, 9⟩)).cell :=
  c1_amended_stale 10 3 (by decide) ⟨4, 9⟩ Action.scale

/-- Claim C2: for every sequence of activations (each followed by its
re-render), the value the next render displays — both the captured `count`
and the "Your count:" paragraph of the rendered tree — equals the
left-to-right fold of the transition functions over the initial value 0. -/
theorem c2_displayed_is_fold (acts : List Action) :
    (runRendered acts).captured = specDisplayedFold acts ∧
    paragraphTexts (CounterRender ((runRendered acts).captured)) =
      ["Your count: " ++ toString (specDisplayedFold acts)] := by
  have h : (runRendered acts).captured = specDisplayedFold acts := by
    rw [runRendered_eq_fold acts]
  exact ⟨h, by rw [h]; exact counterRender_paragraphTexts _⟩

/-- Claim C3: for every current value `c`, increment yields `c + 1`, scale
yields `c * 5`, reset yields `0`; in particular scale maps 0 to 0. -/
theorem c3_transition_values (c : Int) :
    transitionOf Action.increment c = c + 1 ∧
    transitionOf Action.scale c = c * 5 ∧
    transitionOf Action.reset c = 0 ∧
    transitionOf Action.scale 0 = 0 := by
  refine ⟨rfl, rfl, rfl, ?_⟩
  decide

/-- Claim C4: for every binding, `CounterButton` renders exactly one
actionable element, its displayed text is the label verbatim, and its
handler is the given callback itself, unwrapped. -/
theorem c4_action_view_binding (κ : Type) (p : Props κ) :
    actionables (CounterButton p) = [(p.numberFunction, p.buttonLabel)] := by
  simp [CounterButton, actionables, actionablesList, innerTextList, innerText]

/-- Claim C5: increment then scale from 0 displays 5, scale then increment
from 0 displays 1, and the two orders disagree. -/
theorem c5_not_commutative :
    (runRendered [Action.increment, Action.scale]).cell = 5 ∧
    (runRendered [Action.scale, Action.increment]).cell = 1 ∧
    (runRendered [Action.increment, Action.scale]).cell ≠
      (runRendered [Action.scale, Action.increment]).cell := by
  decide

/-- Claim C6: from any starting state, activating reset `k` times in a row
(for any `1 ≤ k ≤ n`) leaves the cell and the displayed value at 0 — so the
state is 0 after each of the `n` activations. -/
theorem c6_reset_idempotent (s : CounterSys) (n k : Nat) (h1 : 1 ≤ k) (h2 : k ≤ n) :
    ((List.replicate k Action.reset).foldl step s).cell = 0 ∧
    ((List.replicate k Action.reset).foldl step s).captured = 0 := by
  obtain ⟨j, rfl⟩ : ∃ j, k = j + 1 := ⟨k - 1, (Nat.succ_pred_eq_of_pos h1).symm⟩
  have hstep : step s Action.reset = initSys := by
    simp [step, activate, rerender, transitionOf, resetNumber, initSys]
  rw [List.replicate_succ, List.foldl_cons, hstep, reset_fold_step_zero]
  exact ⟨rfl, rfl⟩

/-- Claim C6 witness: three scheduled activations, the state checked after
the second, starting from the cell at 42 with captured value 7. -/
theorem c6_reset_idempotent_witness :
    ((List.replicate 2 Action.reset).foldl step ⟨42, 7⟩).cell = 0 ∧
    ((List.replicate 2 Action.reset).foldl step ⟨42, 7⟩).captured = 0 :=
  c6_reset_idempotent ⟨42, 7⟩ 3 2 (by decide) (by decide)

/-- Claim C7: for every state value, `Counter`'s render contains one `h2`
heading, a text line displaying the current value, and exactly three
actionable bindings, in order increment/scale/reset with labels
"++"/"*=5"/"=0", whose tags fire `addNumber`, `multNumber`, `resetNumber`. -/
theorem c7_state_owner_tree (c : Int) :
    countTag "h2" (CounterRender c) = 1 ∧
    paragraphTexts (CounterRender c) = ["Your count: " ++ toString c] ∧
    actionables (CounterRender c) =
      [(Action.increment, "++"), (Action.scale, "*=5"), (Action.reset, "=0")] ∧
    transitionOf Action.increment = addNumber ∧
    transitionOf Action.scale = multNumber ∧
    transitionOf Action.reset = resetNumber := by
  refine ⟨?_, counterRender_paragraphTexts c, counterRender_actionables c, rfl, rfl, rfl⟩
  simp [CounterRender, CounterButton, countTag, countTagList]

/-- Claim C8: `CounterButton` validates nothing — its render succeeds on
every props object, however malformed; a missing or non-callable handler
only fails later, when the runtime dispatches a click to it. -/
theorem c8_no_validation (p : LooseProps) :
    (∃ t, CounterButtonJS p = Except.ok t) ∧
    (isCallable p.numberFunction = false →
      ∃ e, dispatchClick p.numberFunction = Except.error e) := by
  refine ⟨⟨_, rfl⟩, fun h => ?_⟩
  cases hv : p.numberFunction <;> rw [hv] at h <;>
    simp_all [isCallable, dispatchClick]

/-- Claim C8 witness: a props object whose callback slot is `undefined` and
whose label slot holds a number still renders, and clicking it raises. -/
theorem c8_no_validation_witness :
    (∃ t, CounterButtonJS ⟨JSValue.undef, JSValue.num 3⟩ = Except.ok t) ∧
    (∃ e, dispatchClick JSValue.undef = Except.error e) :=
  ⟨(c8_no_validation ⟨JSValue.undef, JSValue.num 3⟩).1,
   (c8_no_validation ⟨JSValue.undef, JSValue.num 3⟩).2 (by decide)⟩

/-- Claim C9: `CounterButton` is stateless and its render is a pure function
of the `{callback, label}` binding: any two props objects agreeing on those
two fields — whatever else they carry — render to equal view trees. -/
theorem c9_render_pure (κ : Type) (p q : Props κ)
    (hf : p.numberFunction = q.numberFunction)
    (hl : p.buttonLabel = q.buttonLabel) :
    CounterButton p = CounterButton q := by
  simp [CounterButton, hf, hl]

/-- Claim C9 witness: two bindings with the same callback and label but
different extra props render identically. -/
theorem c9_render_pure_witness :
    CounterButton ⟨Action.increment, "++", [("data-style", "red")]⟩ =
      CounterButton ⟨Action.increment, "++", []⟩ :=
  c9_render_pure Action
    ⟨Action.increment, "++", [("data-style", "red")]⟩
    ⟨Action.increment, "++", []⟩ rfl rfl

/-- Claim C10: the callbacks of one render all compute from that render's
captured value `c`: any non-empty burst of activations with no intervening
re-render leaves the cell at the single-step result of the burst's last
activation applied to `c`. -/
theorem c10_burst_last_wins (c : Int) (l : List Action) (a : Action) :
    ((l ++ [a]).foldl activateStep ⟨c, c⟩).cell = transitionOf a c := by
  simpa using foldl_activateStep_last l a ⟨c, c⟩

end ReactDataStyles
